import Mathlib

/-!
Verification of the jakkserv HTTP utility server (`src/main.go`).

The Go program is embedded shallowly:

* The sqlite table `entries (id AUTOINCREMENT, tag TEXT UNIQUE, url TEXT)`
  is modelled as an append-only list of `(tag, url)` pairs, in insertion
  order.  `INSERT` with the UNIQUE constraint becomes `dbInsert`, which
  fails exactly when the tag is already present; `SELECT url FROM entries
  WHERE tag = ?` with `QueryRow` becomes `dbQueryURL`, which returns the
  first matching row or a no-rows error.
* An HTTP request is a record of the fields the handlers inspect:
  the method, the header lookup function (Go's `r.Header.Get` returns `""`
  for an absent header, so the model is `String → String`), the result of
  decoding the body with `encoding/json` into each handler's parameter
  struct (`none` models a decode error; a present object with a missing
  field decodes to the zero value `""`, as `encoding/json` does), the
  `tag` query parameter (`""` when absent, as `url.Values.Get` returns),
  and the remote address as a list of characters.
* The ini configuration is a lookup `sectionName → keyName → value`; the
  go-ini `Key(...).String()` call returns `""` for a missing key or
  section, which the model reflects.
* Handler side effects are threaded through a `World`: the persistent
  store plus the list of mails handed to `smtp.SendMail`.  The outcome of
  the external SMTP collaborator is a boolean parameter of
  `notifyHandler`.
-/

/-- One row of the `entries` table: a `(tag, url)` pair.  The sqlite
`id` column is the list position and is never read by the program. -/
abbrev Store := List (String × String)

/-- Errors surfaced by the sqlite layer: the UNIQUE-constraint violation on
`tag`, the `sql.ErrNoRows` sentinel from `QueryRow.Scan`, and any other
persistence failure. -/
inductive DBError where
  | duplicateTag
  | noRows
  | storageFailure
  deriving DecidableEq, Repr

/-- `db.Exec("INSERT INTO entries (tag, url) VALUES (?, ?)", tag, url)`:
the UNIQUE constraint on `tag` rejects an insert whose tag is already
present; otherwise the row is appended. -/
def dbInsert (s : Store) (tag url : String) : Except DBError Store :=
  if s.any (fun e => e.1 = tag) then .error .duplicateTag
  else .ok (s ++ [(tag, url)])

/-- `db.QueryRow("SELECT url FROM entries WHERE tag = ?", tag).Scan(&url)`:
the url of the first row whose tag matches, or `sql.ErrNoRows`. -/
def dbQueryURL (s : Store) (tag : String) : Except DBError String :=
  match s.find? (fun e => e.1 = tag) with
  | some e => .ok e.2
  | none => .error .noRows

/-- A mail handed to `smtp.SendMail`: the recipient list and the message
bytes. -/
structure Mail where
  recipients : List String
  message : String
  deriving DecidableEq, Repr

/-- The mutable state the handlers touch: the persistent store and the
mails sent so far. -/
structure World where
  store : Store
  sentMail : List Mail
  deriving DecidableEq, Repr

/-- The fields of `*http.Request` the program reads.  `headers` models
`r.Header.Get` (`""` for an absent header); `jsonTagURL` and
`jsonLevelBody` are the results of `json.NewDecoder(r.Body).Decode` into
the `{tag,url}` and `{level,body}` structs (`none` = decode error; a
missing field decodes to `""`); `queryTag` is `r.URL.Query().Get("tag")`. -/
structure Request where
  method : String
  headers : String → String
  jsonTagURL : Option (String × String)
  jsonLevelBody : Option (String × String)
  queryTag : String
  remoteAddr : List Char

/-- The response a handler writes: the status code (200 when only a body
is printed), the plain-text body, and the `Location` target set by
`http.Redirect`. -/
structure Response where
  status : Nat
  body : String
  redirectTo : Option String := none
  deriving DecidableEq, Repr

/-- The ini configuration: `get sectionName keyName` is
`cfg.Section(sectionName).Key(keyName).String()`, which is `""` when the
section or key is absent. -/
structure Config where
  get : String → String → String

/-- A request handler: Go's `http.HandlerFunc`, with the response and the
side effects made explicit. -/
abbrev Handler := Request → World → Response × World

/-- `saveHandler` (src/main.go:78-99): POST only; decode `{tag,url}` (a
decode error is a 400); insert, surfacing any insert error as a 500;
otherwise print `success`. -/
def saveHandler : Handler := fun r w =>
  if r.method ≠ "POST" then
    ({ status := 405, body := "Invalid request method" }, w)
  else
    match r.jsonTagURL with
    | none => ({ status := 400, body := "Invalid request body" }, w)
    | some (tag, url) =>
      match dbInsert w.store tag url with
      | .error _ => ({ status := 500, body := "Failed to save data" }, w)
      | .ok s => ({ status := 200, body := "success" }, { w with store := s })

/-- `retrieveHandler` (src/main.go:101-120): an empty/absent `tag` query
parameter is a 400; `sql.ErrNoRows` is a 404; any other query error is a
500; otherwise `http.Redirect(..., url, http.StatusFound)`. -/
def retrieveHandler : Handler := fun r w =>
  if r.queryTag = "" then
    ({ status := 400, body := "Tag is required" }, w)
  else
    match dbQueryURL w.store r.queryTag with
    | .error .noRows => ({ status := 404, body := "No URL found for the given tag" }, w)
    | .error _ => ({ status := 500, body := "Failed to retrieve data" }, w)
    | .ok url => ({ status := 302, body := "", redirectTo := some url }, w)

/-- Go's `strings.Split(s, sep)` for a single-character separator, on the
character list of `s`: splitting the empty string gives `[[]]`, and each
occurrence of the separator starts a new field. -/
def goSplit (sep : Char) : List Char → List (List Char)
  | [] => [[]]
  | c :: cs =>
    match goSplit sep cs with
    | [] => [[]]
    | p :: ps => if c = sep then [] :: p :: ps else (c :: p) :: ps

/-- Go's `strings.Join(parts, sep)` for a single-character separator. -/
def goJoin (sep : Char) : List (List Char) → List Char
  | [] => []
  | [p] => p
  | p :: ps => p ++ sep :: goJoin sep ps

/-- `ipHandler` (src/main.go:31-35): split `r.RemoteAddr` on `":"`, drop
the last field, and join the rest back with `":"` — i.e. strip the
trailing `:port`. -/
def ipHandler : Handler := fun r w =>
  ({ status := 200,
     body := String.mk (goJoin ':' ((goSplit ':' r.remoteAddr).dropLast)) }, w)

/-- The recipient list of `notifyHandler`: `sendto` split on `","`, each
value trimmed. -/
def notifyRecipients (cfg : Config) : List String :=
  ((cfg.get "smtp" "sendto").splitOn ",").map String.trim

/-- `notifyHandler` (src/main.go:37-76): POST only; decode `{level,body}`
(a decode error is a 400); an empty level or body is a 400; then hand the
mail to `smtp.SendMail` — `smtpOK` is that external collaborator's
outcome — surfacing a relay failure as a 500. -/
def notifyHandler (smtpOK : Bool) (cfg : Config) : Handler := fun r w =>
  if r.method ≠ "POST" then
    ({ status := 405, body := "Invalid request method" }, w)
  else
    match r.jsonLevelBody with
    | none => ({ status := 400, body := "Invalid request body" }, w)
    | some (level, body) =>
      if level = "" ∨ body = "" then
        ({ status := 400, body := "Invalid request body" }, w)
      else if smtpOK then
        ({ status := 200, body := "success" },
         { w with sentMail := w.sentMail ++
             [{ recipients := notifyRecipients cfg,
                message := level ++ "\r\n\r\n" ++ body }] })
      else
        ({ status := 500, body := "RequestFailed" }, w)

/-- `authWrapper` (src/main.go:144-159): read the header named by
`general.authheader`; an empty value (absent or empty header) or a value
different from `general.secret` is a 401 and the wrapped handler never
runs; otherwise the wrapped handler runs. -/
def authWrapper (cfg : Config) (next : Handler) : Handler := fun r w =>
  let auth := r.headers (cfg.get "general" "authheader")
  if auth = "" then
    ({ status := 401, body := "unauthorized" }, w)
  else if auth ≠ cfg.get "general" "secret" then
    ({ status := 401, body := "unauthorized" }, w)
  else
    next r w

/-- `checkConfig` (src/main.go:161-173): every listed key of the section
must have a nonempty value.  (go-ini's `Section` never returns nil — it
creates missing sections — so the nil branch of the source is vacuous and
a missing section fails through its keys reading as `""`.) -/
def checkConfig (cfg : Config) (sec : String) (keys : List String) : Bool :=
  keys.all (fun k => cfg.get sec k ≠ "")

/-- The required `smtp` keys (src/main.go:127). -/
def smtpKeys : List String := ["server", "port", "username", "password", "sendto"]

/-- The required `general` keys (src/main.go:131-135). -/
def generalKeys : List String :=
  ["database", "secret", "authheader", "sslport",
   "httpport", "sslcert", "sslkey", "httpenabled", "sslenabled"]

/-- `parseConfig` (src/main.go:122-142) after a successful `ini.Load`:
both key lists must check out. -/
def parseConfig (cfg : Config) : Bool :=
  checkConfig cfg "smtp" smtpKeys && checkConfig cfg "general" generalKeys

/-- What `main` (src/main.go:175-226) does before blocking: either
`os.Exit(1)` on a failed `parseConfig`, or serve with the listeners
selected by the `httpenabled`/`sslenabled` flags. -/
inductive StartupOutcome where
  | exited (code : Nat)
  | serving (httpListener sslListener : Bool)
  deriving DecidableEq, Repr

/-- The startup path of `main`: `parseConfig` failing exits with code 1
before `initDB`, before any route is registered and before any listener
is bound; otherwise the flags `httpenabled = "true"` / `sslenabled =
"true"` select the listeners. -/
def mainStartup (cfg : Config) : StartupOutcome :=
  if !parseConfig cfg then .exited 1
  else .serving (cfg.get "general" "httpenabled" = "true")
               (cfg.get "general" "sslenabled" = "true")

/-- `initDB` (src/main.go:20-29): `sql.Open` failing panics; the result of
`db.Exec(createTableSQL)` is discarded, so its success or failure does not
influence the outcome. -/
inductive InitDBOutcome where
  | panicked
  | ready
  deriving DecidableEq, Repr

/-- `initDB`, with the two fallible sqlite calls made explicit: `openOK`
is whether `sql.Open` succeeded, `createTableResult` is what
`db.Exec(createTableSQL)` returned.  The source assigns the latter to
nothing, so the definition ignores it. -/
def initDB (openOK : Bool) (createTableResult : Except String Unit) : InitDBOutcome :=
  if openOK then .ready else .panicked

/-! ### Helper lemmas about the store operations -/

/-- Inserting a tag no existing entry carries appends the row. -/
theorem dbInsert_of_free (s : Store) (t u : String) (h : ∀ e ∈ s, e.1 ≠ t) :
    dbInsert s t u = .ok (s ++ [(t, u)]) := by
  unfold dbInsert
  have hany : s.any (fun e => e.1 = t) = false := by
    simp only [List.any_eq_false, decide_eq_true_eq]
    exact h
  simp [hany]

/-- Inserting a tag some existing entry carries hits the UNIQUE
constraint. -/
theorem dbInsert_of_mem (s : Store) (t u : String) (e : String × String)
    (he : e ∈ s) (ht : e.1 = t) : dbInsert s t u = .error .duplicateTag := by
  unfold dbInsert
  have hany : s.any (fun x => x.1 = t) = true := by
    simp only [List.any_eq_true, decide_eq_true_eq]
    exact ⟨e, he, ht⟩
  simp [hany]

/-- Querying a tag no entry carries returns the no-rows error. -/
theorem dbQueryURL_of_free (s : Store) (t : String) (h : ∀ e ∈ s, e.1 ≠ t) :
    dbQueryURL s t = .error .noRows := by
  unfold dbQueryURL
  have : s.find? (fun e => e.1 = t) = none := by
    simp only [List.find?_eq_none, decide_eq_true_eq]
    exact h
  simp [this]

/-- Querying a tag carried by exactly one entry returns that entry's
url. -/
theorem dbQueryURL_of_unique (s : Store) (t u : String)
    (hmem : (t, u) ∈ s) (huniq : ∀ e ∈ s, e.1 = t → e = (t, u)) :
    dbQueryURL s t = .ok u := by
  unfold dbQueryURL
  cases hf : s.find? (fun e => e.1 = t) with
  | none =>
    rw [List.find?_eq_none] at hf
    exact absurd (by simp) (hf (t, u) hmem)
  | some e =>
    have h1 := List.find?_some hf
    have h2 := List.mem_of_find?_eq_some hf
    simp only [decide_eq_true_eq] at h1
    rw [huniq e h2 h1]

/-! ### Helper lemmas about the Go string split/join used by `ipHandler` -/

theorem goSplit_ne_nil (sep : Char) (l : List Char) : goSplit sep l ≠ [] := by
  cases l with
  | nil => simp [goSplit]
  | cons c cs =>
    unfold goSplit
    cases goSplit sep cs with
    | nil => simp
    | cons p ps =>
      by_cases hc : c = sep <;> simp [hc]

/-- Splitting a separator-free list yields that single field. -/
theorem goSplit_of_not_mem (sep : Char) (l : List Char) (h : sep ∉ l) :
    goSplit sep l = [l] := by
  induction l with
  | nil => rfl
  | cons c cs ih =>
    have hc : c ≠ sep := fun hc => h (hc ▸ List.mem_cons_self c cs)
    have hcs : sep ∉ cs := fun hm => h (List.mem_cons_of_mem c hm)
    unfold goSplit
    rw [ih hcs]
    simp [hc]

/-- Splitting `a ++ sep :: p` with `p` separator-free splits `a` and adds
`p` as the final field. -/
theorem goSplit_append (sep : Char) (a p : List Char) (hp : sep ∉ p) :
    goSplit sep (a ++ sep :: p) = goSplit sep a ++ [p] := by
  induction a with
  | nil =>
    simp only [List.nil_append]
    unfold goSplit
    rw [goSplit_of_not_mem sep p hp]
    simp [goSplit]
  | cons c a' ih =>
    simp only [List.cons_append]
    unfold goSplit
    rw [ih]
    cases ha : goSplit sep a' with
    | nil => exact absurd ha (goSplit_ne_nil sep a')
    | cons q qs =>
      by_cases hc : c = sep <;> simp [hc]

/-- Joining undoes splitting. -/
theorem goJoin_goSplit (sep : Char) (l : List Char) :
    goJoin sep (goSplit sep l) = l := by
  induction l with
  | nil => rfl
  | cons c cs ih =>
    unfold goSplit
    cases h : goSplit sep cs with
    | nil => exact absurd h (goSplit_ne_nil sep cs)
    | cons p ps =>
      rw [h] at ih
      by_cases hc : c = sep
      · subst hc
        simpa [goJoin] using ih
      · simp only [hc, if_false]
        cases ps with
        | nil => simpa [goJoin] using ih
        | cons q qs => simpa [goJoin] using ih

/-! ### Concrete configurations, requests and worlds used by the
witnesses -/

/-- A request with every field at its neutral value. -/
def baseReq : Request :=
  { method := "GET", headers := fun _ => "", jsonTagURL := none,
    jsonLevelBody := none, queryTag := "", remoteAddr := [] }

/-- An authorized-shape POST to `/puturl` whose body decoded to
`{tag, url}`. -/
def putReq (t u : String) : Request :=
  { baseReq with method := "POST", jsonTagURL := some (t, u) }

/-- A GET of `/geturl?tag=t`. -/
def getReq (t : String) : Request :=
  { baseReq with queryTag := t }

/-- A server state with no entries and no mail sent. -/
def emptyWorld : World := { store := [], sentMail := [] }

/-- A fully populated configuration. -/
def cfgEx : Config :=
  { get := fun sec key =>
      if sec = "general" then
        if key = "authheader" then "X-Auth"
        else if key = "secret" then "hunter2"
        else if key = "database" then "jakkserv.db"
        else if key = "sslport" then "8443"
        else if key = "httpport" then "8080"
        else if key = "sslcert" then "cert.pem"
        else if key = "sslkey" then "key.pem"
        else if key = "httpenabled" then "true"
        else if key = "sslenabled" then "false"
        else ""
      else if sec = "smtp" then
        if key = "server" then "mail.example.com"
        else if key = "port" then "587"
        else if key = "username" then "user"
        else if key = "password" then "pass"
        else if key = "sendto" then "a@example.com, b@example.com"
        else ""
      else "" }

/-- `cfgEx` with the required `general.secret` key removed. -/
def cfgNoSecret : Config :=
  { get := fun sec key =>
      if sec = "general" then
        if key = "secret" then "" else cfgEx.get sec key
      else cfgEx.get sec key }

/-- A stand-in wrapped handler, used to observe whether `authWrapper`
runs it. -/
def nextEx : Handler := fun _ w => ({ status := 200, body := "ok" }, w)

/-- A request presenting the correct credential for `cfgEx`. -/
def reqGoodAuth : Request :=
  { baseReq with headers := fun h => if h = "X-Auth" then "hunter2" else "" }

/-! ### The claims -/

/-- C1: a request to `/puturl` or `/notify` whose configured auth header
is absent/empty or differs from the configured secret gets a 401 and the
wrapped handler never runs — the state (store and outbound mail) is
untouched, for any wrapped handler; a request whose header value equals
the (nonempty, as `checkConfig` guarantees) secret runs the wrapped
handler. -/
theorem auth_gate_blocks_or_passes (cfg : Config) (next : Handler) (r : Request) (w : World) :
    ((r.headers (cfg.get "general" "authheader") = "" ∨
      r.headers (cfg.get "general" "authheader") ≠ cfg.get "general" "secret") →
      authWrapper cfg next r w = ({ status := 401, body := "unauthorized" }, w)) ∧
    (cfg.get "general" "secret" ≠ "" →
      r.headers (cfg.get "general" "authheader") = cfg.get "general" "secret" →
      authWrapper cfg next r w = next r w) := by
  constructor
  · intro h
    rcases h with h | h
    · simp [authWrapper, h]
    · by_cases he : r.headers (cfg.get "general" "authheader") = ""
      · simp [authWrapper, he]
      · simp [authWrapper, he, h]
  · intro hs hh
    simp [authWrapper, hh, hs]

theorem auth_gate_blocks_or_passes_witness :
    authWrapper cfgEx nextEx baseReq emptyWorld
      = ({ status := 401, body := "unauthorized" }, emptyWorld) ∧
    authWrapper cfgEx nextEx reqGoodAuth emptyWorld = nextEx reqGoodAuth emptyWorld := by
  constructor
  · exact (auth_gate_blocks_or_passes cfgEx nextEx baseReq emptyWorld).1 (Or.inl rfl)
  · exact (auth_gate_blocks_or_passes cfgEx nextEx reqGoodAuth emptyWorld).2
      (by decide) (by decide)

/-- C2: saving `(t, u1)` into a store with no entry for `t` succeeds
(200); a second save of `(t, u2)` hits the UNIQUE constraint and is
surfaced as a 500, the state is unchanged by the failed save, and the
store still carries exactly `(t, u1)` for `t`. -/
theorem save_duplicate_tag (t u1 u2 : String) (w : World)
    (hfree : ∀ e ∈ w.store, e.1 ≠ t) :
    (saveHandler (putReq t u1) w).1.status = 200 ∧
    dbInsert (saveHandler (putReq t u1) w).2.store t u2 = .error .duplicateTag ∧
    (saveHandler (putReq t u2) (saveHandler (putReq t u1) w).2).1.status = 500 ∧
    (saveHandler (putReq t u2) (saveHandler (putReq t u1) w).2).2
      = (saveHandler (putReq t u1) w).2 ∧
    ((saveHandler (putReq t u2) (saveHandler (putReq t u1) w).2).2.store.filter
      (fun e => e.1 = t)) = [(t, u1)] := by
  have h1 : saveHandler (putReq t u1) w
      = ({ status := 200, body := "success" }, { w with store := w.store ++ [(t, u1)] }) := by
    simp [saveHandler, putReq, baseReq, dbInsert_of_free w.store t u1 hfree]
  have h2 : dbInsert (w.store ++ [(t, u1)]) t u2 = .error .duplicateTag :=
    dbInsert_of_mem _ t u2 (t, u1) (by simp) rfl
  have h3 : saveHandler (putReq t u2) ({ w with store := w.store ++ [(t, u1)] } : World)
      = ({ status := 500, body := "Failed to save data" },
         ({ w with store := w.store ++ [(t, u1)] } : World)) := by
    simp [saveHandler, putReq, baseReq, h2]
  have hfilter : w.store.filter (fun e => e.1 = t) = [] := by
    rw [List.filter_eq_nil_iff]
    intro e he
    simpa using hfree e he
  rw [h1]
  refine ⟨rfl, h2, ?_, ?_, ?_⟩
  · rw [h3]
  · rw [h3]
  · rw [h3]
    simp [List.filter_append, hfilter]

theorem save_duplicate_tag_witness :
    (saveHandler (putReq "t1" "u1") emptyWorld).1.status = 200 ∧
    dbInsert (saveHandler (putReq "t1" "u1") emptyWorld).2.store "t1" "u2"
      = .error .duplicateTag ∧
    (saveHandler (putReq "t1" "u2") (saveHandler (putReq "t1" "u1") emptyWorld).2).1.status = 500 ∧
    (saveHandler (putReq "t1" "u2") (saveHandler (putReq "t1" "u1") emptyWorld).2).2
      = (saveHandler (putReq "t1" "u1") emptyWorld).2 ∧
    ((saveHandler (putReq "t1" "u2") (saveHandler (putReq "t1" "u1") emptyWorld).2).2.store.filter
      (fun e => e.1 = "t1")) = [("t1", "u1")] :=
  save_duplicate_tag "t1" "u1" "u2" emptyWorld (by decide)

/-- C3: for distinct tags `t1 ≠ t2` absent from the store, saving
`(t1, u1)` then `(t2, u2)` and looking each tag up returns the matching
URL — both at the store layer and, for nonempty tags, through `/geturl`,
which redirects to it. -/
theorem save_lookup_roundtrip (t1 t2 u1 u2 : String) (hne : t1 ≠ t2) (w : World)
    (h1 : ∀ e ∈ w.store, e.1 ≠ t1) (h2 : ∀ e ∈ w.store, e.1 ≠ t2) :
    dbQueryURL (saveHandler (putReq t2 u2) (saveHandler (putReq t1 u1) w).2).2.store t1
      = .ok u1 ∧
    dbQueryURL (saveHandler (putReq t2 u2) (saveHandler (putReq t1 u1) w).2).2.store t2
      = .ok u2 ∧
    (t1 ≠ "" → retrieveHandler (getReq t1)
        (saveHandler (putReq t2 u2) (saveHandler (putReq t1 u1) w).2).2
      = ({ status := 302, body := "", redirectTo := some u1 },
         (saveHandler (putReq t2 u2) (saveHandler (putReq t1 u1) w).2).2)) ∧
    (t2 ≠ "" → retrieveHandler (getReq t2)
        (saveHandler (putReq t2 u2) (saveHandler (putReq t1 u1) w).2).2
      = ({ status := 302, body := "", redirectTo := some u2 },
         (saveHandler (putReq t2 u2) (saveHandler (putReq t1 u1) w).2).2)) := by
  have hs1 : saveHandler (putReq t1 u1) w
      = ({ status := 200, body := "success" }, { w with store := w.store ++ [(t1, u1)] }) := by
    simp [saveHandler, putReq, baseReq, dbInsert_of_free w.store t1 u1 h1]
  have h2' : ∀ e ∈ w.store ++ [(t1, u1)], e.1 ≠ t2 := by
    intro e he
    rcases List.mem_append.mp he with h | h
    · exact h2 e h
    · rcases List.mem_singleton.mp h with rfl
      exact hne
  have hs2 : saveHandler (putReq t2 u2) ({ w with store := w.store ++ [(t1, u1)] } : World)
      = ({ status := 200, body := "success" },
         { w with store := (w.store ++ [(t1, u1)]) ++ [(t2, u2)] }) := by
    simp [saveHandler, putReq, baseReq, dbInsert_of_free _ t2 u2 h2']
  have hq1 : dbQueryURL ((w.store ++ [(t1, u1)]) ++ [(t2, u2)]) t1 = .ok u1 := by
    refine dbQueryURL_of_unique _ t1 u1 (by simp) ?_
    intro e he ht
    rcases List.mem_append.mp he with h | h
    · rcases List.mem_append.mp h with h | h
      · exact absurd ht (h1 e h)
      · exact List.mem_singleton.mp h
    · rcases List.mem_singleton.mp h with rfl
      exact absurd ht hne.symm
  have hq2 : dbQueryURL ((w.store ++ [(t1, u1)]) ++ [(t2, u2)]) t2 = .ok u2 := by
    refine dbQueryURL_of_unique _ t2 u2 (by simp) ?_
    intro e he ht
    rcases List.mem_append.mp he with h | h
    · rcases List.mem_append.mp h with h | h
      · exact absurd ht (h2 e h)
      · rcases List.mem_singleton.mp h with rfl
        exact absurd ht hne
    · exact List.mem_singleton.mp h
  have hq1' := hq1
  have hq2' := hq2
  simp only [List.append_assoc, List.cons_append, List.nil_append] at hq1' hq2'
  rw [hs1, hs2]
  refine ⟨hq1, hq2, ?_, ?_⟩
  · intro ht1
    simp [retrieveHandler, getReq, baseReq, ht1, hq1']
  · intro ht2
    simp [retrieveHandler, getReq, baseReq, ht2, hq2']

theorem save_lookup_roundtrip_witness :
    dbQueryURL (saveHandler (putReq "b" "u2") (saveHandler (putReq "a" "u1") emptyWorld).2).2.store "a"
      = .ok "u1" ∧
    dbQueryURL (saveHandler (putReq "b" "u2") (saveHandler (putReq "a" "u1") emptyWorld).2).2.store "b"
      = .ok "u2" ∧
    retrieveHandler (getReq "a")
        (saveHandler (putReq "b" "u2") (saveHandler (putReq "a" "u1") emptyWorld).2).2
      = ({ status := 302, body := "", redirectTo := some "u1" },
         (saveHandler (putReq "b" "u2") (saveHandler (putReq "a" "u1") emptyWorld).2).2) ∧
    retrieveHandler (getReq "b")
        (saveHandler (putReq "b" "u2") (saveHandler (putReq "a" "u1") emptyWorld).2).2
      = ({ status := 302, body := "", redirectTo := some "u2" },
         (saveHandler (putReq "b" "u2") (saveHandler (putReq "a" "u1") emptyWorld).2).2) := by
  obtain ⟨c1, c2, c3, c4⟩ :=
    save_lookup_roundtrip "a" "b" "u1" "u2" (by decide) emptyWorld (by decide) (by decide)
  exact ⟨c1, c2, c3 (by decide), c4 (by decide)⟩

/-- The decode result of the POST body `{"tag": "x"}`: `encoding/json`
decodes the absent `url` field to the zero value `""` and reports no
error. -/
def reqMissingURL : Request :=
  { baseReq with method := "POST", jsonTagURL := some ("x", "") }

/-- C4 counterexample: an authorized POST to `/puturl` whose body parses
but misses the `url` field is NOT answered with 400 — `saveHandler`
inserts the entry with an empty url and answers 200, changing the
store. -/
theorem puturl_missing_field_inserted :
    saveHandler reqMissingURL emptyWorld
      = ({ status := 200, body := "success" },
         { store := [("x", "")], sentMail := [] }) := by
  decide

/-- C4 (amended): an authorized POST to `/puturl` whose body is not
parseable as JSON gets a 400 and leaves the store unchanged; a body that
parses but misses `tag` or `url` decodes those fields to `""`, is never
rejected with 400, and is forwarded to the store insert. -/
theorem puturl_bad_body_rejected (r : Request) (w : World) (hm : r.method = "POST") :
    (r.jsonTagURL = none →
      saveHandler r w = ({ status := 400, body := "Invalid request body" }, w)) ∧
    (∀ t u, r.jsonTagURL = some (t, u) →
      (saveHandler r w).1.status ≠ 400 ∧
      ((∀ e ∈ w.store, e.1 ≠ t) →
        saveHandler r w
          = ({ status := 200, body := "success" },
             { w with store := w.store ++ [(t, u)] }))) := by
  constructor
  · intro hj
    simp [saveHandler, hm, hj]
  · intro t u hj
    constructor
    · cases hins : dbInsert w.store t u with
      | error e => simp [saveHandler, hm, hj, hins]
      | ok s => simp [saveHandler, hm, hj, hins]
    · intro hfree
      simp [saveHandler, hm, hj, dbInsert_of_free w.store t u hfree]

theorem puturl_bad_body_rejected_witness :
    saveHandler { baseReq with method := "POST" } emptyWorld
      = ({ status := 400, body := "Invalid request body" }, emptyWorld) ∧
    (saveHandler reqMissingURL emptyWorld).1.status ≠ 400 ∧
    saveHandler reqMissingURL emptyWorld
      = ({ status := 200, body := "success" },
         { emptyWorld with store := emptyWorld.store ++ [("x", "")] }) := by
  obtain ⟨h1, h2⟩ := puturl_bad_body_rejected reqMissingURL emptyWorld rfl
  obtain ⟨h3, h4⟩ := h2 "x" "" rfl
  exact ⟨(puturl_bad_body_rejected { baseReq with method := "POST" } emptyWorld rfl).1 rfl,
         h3, h4 (by decide)⟩

/-- C5: an authorized POST to `/puturl` whose body parses is forwarded to
the insert as-is — empty `tag` or `url` strings are not rejected, and an
entry with empty tag and/or url saves successfully when the tag is not
yet present. -/
theorem puturl_accepts_empty_fields (r : Request) (w : World) (t u : String)
    (hm : r.method = "POST") (hj : r.jsonTagURL = some (t, u))
    (hfree : ∀ e ∈ w.store, e.1 ≠ t) :
    saveHandler r w
      = ({ status := 200, body := "success" },
         { w with store := w.store ++ [(t, u)] }) := by
  simp [saveHandler, hm, hj, dbInsert_of_free w.store t u hfree]

theorem puturl_accepts_empty_fields_witness :
    saveHandler (putReq "" "") emptyWorld
      = ({ status := 200, body := "success" },
         { emptyWorld with store := emptyWorld.store ++ [("", "")] }) :=
  puturl_accepts_empty_fields (putReq "" "") emptyWorld "" "" rfl rfl (by decide)

/-- C6: `/geturl` never changes the state; an empty/absent `tag`
parameter gets a 400; a tag no stored entry carries gets a 404; a tag
stored (uniquely) with url `u` gets a 302 redirect to `u` rather than `u`
as data. -/
theorem geturl_cases (r : Request) (w : World) :
    (retrieveHandler r w).2 = w ∧
    (r.queryTag = "" →
      (retrieveHandler r w).1 = { status := 400, body := "Tag is required" }) ∧
    (r.queryTag ≠ "" → (∀ e ∈ w.store, e.1 ≠ r.queryTag) →
      (retrieveHandler r w).1 = { status := 404, body := "No URL found for the given tag" }) ∧
    (r.queryTag ≠ "" → ∀ u, (r.queryTag, u) ∈ w.store →
      (∀ e ∈ w.store, e.1 = r.queryTag → e = (r.queryTag, u)) →
      (retrieveHandler r w).1 = { status := 302, body := "", redirectTo := some u }) := by
  refine ⟨?_, ?_, ?_, ?_⟩
  · by_cases hq : r.queryTag = ""
    · simp [retrieveHandler, hq]
    · cases hd : dbQueryURL w.store r.queryTag with
      | error e => cases e <;> simp [retrieveHandler, hq, hd]
      | ok u => simp [retrieveHandler, hq, hd]
  · intro hq
    simp [retrieveHandler, hq]
  · intro hq hfree
    simp [retrieveHandler, hq, dbQueryURL_of_free w.store r.queryTag hfree]
  · intro hq u hmem huniq
    simp [retrieveHandler, hq, dbQueryURL_of_unique w.store r.queryTag u hmem huniq]

theorem geturl_cases_witness :
    (retrieveHandler (getReq "a") { store := [("a", "u1")], sentMail := [] }).2
      = { store := [("a", "u1")], sentMail := [] } ∧
    (retrieveHandler (getReq "") { store := [("a", "u1")], sentMail := [] }).1
      = { status := 400, body := "Tag is required" } ∧
    (retrieveHandler (getReq "b") { store := [("a", "u1")], sentMail := [] }).1
      = { status := 404, body := "No URL found for the given tag" } ∧
    (retrieveHandler (getReq "a") { store := [("a", "u1")], sentMail := [] }).1
      = { status := 302, body := "", redirectTo := some "u1" } := by
  refine ⟨(geturl_cases (getReq "a") _).1,
          (geturl_cases (getReq "") _).2.1 rfl,
          (geturl_cases (getReq "b") _).2.2.1 (by decide) (by decide),
          (geturl_cases (getReq "a") _).2.2.2 (by decide) "u1" (by decide) (by decide)⟩

/-- C7: for any remote address of the form `addr:port` (the port free of
colons — both IPv4 `1.2.3.4:p` and bracketed IPv6 `[h]:p` have this
form), `/ip` answers with exactly `addr`, the origin address with the
trailing port suffix stripped, and leaves the state unchanged. -/
theorem ip_strips_port (addr port : List Char) (r : Request) (w : World)
    (hr : r.remoteAddr = addr ++ ':' :: port) (hp : ':' ∉ port) :
    ipHandler r w = ({ status := 200, body := String.mk addr }, w) := by
  unfold ipHandler
  rw [hr, goSplit_append ':' addr port hp, List.dropLast_concat, goJoin_goSplit]

theorem ip_strips_port_witness :
    ipHandler { baseReq with remoteAddr := "198.51.100.7:43210".toList } emptyWorld
      = ({ status := 200, body := String.mk "198.51.100.7".toList }, emptyWorld) ∧
    ipHandler { baseReq with remoteAddr := "[2001:db8::1]:8080".toList } emptyWorld
      = ({ status := 200, body := String.mk "[2001:db8::1]".toList }, emptyWorld) := by
  constructor
  · exact ip_strips_port "198.51.100.7".toList "43210".toList _ emptyWorld (by decide) (by decide)
  · exact ip_strips_port "[2001:db8::1]".toList "8080".toList _ emptyWorld (by decide) (by decide)

/-- C8: a loaded configuration missing (i.e. reading as empty) any
required `smtp` or `general` key makes startup exit with code 1 — no
listener is reached. -/
theorem startup_missing_key_exits (cfg : Config)
    (h : (∃ k ∈ smtpKeys, cfg.get "smtp" k = "") ∨
         (∃ k ∈ generalKeys, cfg.get "general" k = "")) :
    mainStartup cfg = .exited 1 := by
  have hpc : parseConfig cfg = false := by
    rcases h with ⟨k, hk, he⟩ | ⟨k, hk, he⟩
    · have hc : checkConfig cfg "smtp" smtpKeys = false := by
        simp only [checkConfig, List.all_eq_false]
        exact ⟨k, hk, by simp [he]⟩
      simp [parseConfig, hc]
    · have hc : checkConfig cfg "general" generalKeys = false := by
        simp only [checkConfig, List.all_eq_false]
        exact ⟨k, hk, by simp [he]⟩
      simp [parseConfig, hc]
  simp [mainStartup, hpc]

theorem startup_missing_key_exits_witness :
    mainStartup cfgNoSecret = .exited 1 :=
  startup_missing_key_exits cfgNoSecret (Or.inr ⟨"secret", by decide, by decide⟩)

/-- C9 counterexample: `initDB` discards the result of
`db.Exec(createTableSQL)` (src/main.go:28) — a failing schema creation
produces exactly the outcome of a successful one, with no caller-visible
signal of the error. -/
theorem initdb_swallows_exec_error :
    initDB true (.error "disk I/O error") = initDB true (.ok ()) ∧
    initDB true (.error "disk I/O error") = .ready :=
  ⟨rfl, rfl⟩

/-- A configuration every key of which reads as missing. -/
def cfgNone : Config := { get := fun _ _ => "" }

/-- A request exercising every per-request failure path at once: wrong
tag to insert over, absent auth header, unsaved query tag, nonempty
notification fields. -/
def reqFail : Request :=
  { method := "POST", headers := fun _ => "",
    jsonTagURL := some ("x", "y2"), jsonLevelBody := some ("warn", "hello"),
    queryTag := "zzz", remoteAddr := [] }

/-- A world already carrying the tag `"x"`. -/
def worldX : World := { store := [("x", "y1")], sentMail := [] }

/-- C9 (amended): every failure path except the schema-creation `Exec`
inside `initDB` produces a caller-visible outcome — a failed insert is a
500, a missed lookup a 404, a failed relay a 500, a missing credential a
401, a failed config check a nonzero exit, a failed `sql.Open` a panic;
the schema-creation error alone is discarded
(`initdb_swallows_exec_error`). -/
theorem failures_surface (cfg : Config) (r : Request) (w : World) :
    (∀ t u e, r.method = "POST" → r.jsonTagURL = some (t, u) →
      dbInsert w.store t u = .error e →
      saveHandler r w = ({ status := 500, body := "Failed to save data" }, w)) ∧
    (r.queryTag ≠ "" → dbQueryURL w.store r.queryTag = .error .noRows →
      retrieveHandler r w = ({ status := 404, body := "No URL found for the given tag" }, w)) ∧
    (∀ lvl bdy, r.method = "POST" → r.jsonLevelBody = some (lvl, bdy) →
      lvl ≠ "" → bdy ≠ "" →
      notifyHandler false cfg r w = ({ status := 500, body := "RequestFailed" }, w)) ∧
    (∀ next, r.headers (cfg.get "general" "authheader") = "" →
      authWrapper cfg next r w = ({ status := 401, body := "unauthorized" }, w)) ∧
    (parseConfig cfg = false → mainStartup cfg = .exited 1) ∧
    (∀ res, initDB false res = .panicked) := by
  refine ⟨?_, ?_, ?_, ?_, ?_, ?_⟩
  · intro t u e hm hj hins
    simp [saveHandler, hm, hj, hins]
  · intro hq hd
    simp [retrieveHandler, hq, hd]
  · intro lvl bdy hm hj hl hb
    simp [notifyHandler, hm, hj, hl, hb]
  · intro next hh
    simp [authWrapper, hh]
  · intro hpc
    simp [mainStartup, hpc]
  · intro res
    rfl

theorem failures_surface_witness :
    saveHandler reqFail worldX = ({ status := 500, body := "Failed to save data" }, worldX) ∧
    retrieveHandler reqFail worldX
      = ({ status := 404, body := "No URL found for the given tag" }, worldX) ∧
    notifyHandler false cfgEx reqFail worldX
      = ({ status := 500, body := "RequestFailed" }, worldX) ∧
    authWrapper cfgEx nextEx reqFail worldX
      = ({ status := 401, body := "unauthorized" }, worldX) ∧
    mainStartup cfgNone = .exited 1 ∧
    initDB false (.ok ()) = .panicked := by
  obtain ⟨h1, h2, h3, h4, _, h6⟩ := failures_surface cfgEx reqFail worldX
  obtain ⟨_, _, _, _, h5, _⟩ := failures_surface cfgNone reqFail worldX
  exact ⟨h1 "x" "y2" .duplicateTag rfl rfl rfl,
         h2 (by decide) rfl,
         h3 "warn" "hello" rfl rfl (by decide) (by decide),
         h4 nextEx rfl,
         h5 (by decide),
         h6 (.ok ())⟩

/-- C10: `authWrapper` runs before the handler's method check, so a
wrong-method request to `/puturl` or `/notify` without the correct
credential gets a 401, and 405 is answered only when the correct
credential (nonempty secret) is presented with the wrong method. -/
theorem auth_checked_before_method (cfg : Config) (r : Request) (w : World) (smtpOK : Bool)
    (hm : r.method ≠ "POST") :
    ((r.headers (cfg.get "general" "authheader") = "" ∨
      r.headers (cfg.get "general" "authheader") ≠ cfg.get "general" "secret") →
      (authWrapper cfg saveHandler r w).1.status = 401 ∧
      (authWrapper cfg (notifyHandler smtpOK cfg) r w).1.status = 401) ∧
    (cfg.get "general" "secret" ≠ "" →
      r.headers (cfg.get "general" "authheader") = cfg.get "general" "secret" →
      (authWrapper cfg saveHandler r w).1.status = 405 ∧
      (authWrapper cfg (notifyHandler smtpOK cfg) r w).1.status = 405) := by
  constructor
  · intro h
    rcases h with h | h
    · constructor <;> simp [authWrapper, h]
    · by_cases he : r.headers (cfg.get "general" "authheader") = ""
      · constructor <;> simp [authWrapper, he]
      · constructor <;> simp [authWrapper, he, h]
  · intro hs hh
    constructor
    · simp [authWrapper, hh, hs, saveHandler, hm]
    · simp [authWrapper, hh, hs, notifyHandler, hm]

theorem auth_checked_before_method_witness :
    (authWrapper cfgEx saveHandler baseReq emptyWorld).1.status = 401 ∧
    (authWrapper cfgEx (notifyHandler true cfgEx) baseReq emptyWorld).1.status = 401 ∧
    (authWrapper cfgEx saveHandler reqGoodAuth emptyWorld).1.status = 405 ∧
    (authWrapper cfgEx (notifyHandler true cfgEx) reqGoodAuth emptyWorld).1.status = 405 := by
  obtain ⟨ha, _⟩ := auth_checked_before_method cfgEx baseReq emptyWorld true (by decide)
  obtain ⟨_, hb⟩ := auth_checked_before_method cfgEx reqGoodAuth emptyWorld true (by decide)
  obtain ⟨h1, h2⟩ := ha (Or.inl rfl)
  obtain ⟨h3, h4⟩ := hb (by decide) (by decide)
  exact ⟨h1, h2, h3, h4⟩
